import Mathlib

/-!
Verification of the detection core of `ai_cloud_threat_hunter.py`.

The engine is embedded shallowly: Python floats become `ℚ` (all engine
arithmetic is comparisons, `+`, `*`, `/`; only `EWMA.zscore` takes a square
root, which is modelled over `ℝ`), `Optional[str]` becomes `Option String`,
`collections.deque` becomes `List ℚ` (front = oldest), and the lazily
growing `defaultdict` maps become insertion-ordered association lists.
Wall-clock reads (`time.time()`, `datetime.utcnow()`) are passed in as an
explicit `now : ℚ` argument; the `ts` field of an alert (a pure wall-clock
stamp) and the human-readable `detail` string are not modelled.
Alerts are both recorded in `Stats` (as in `_alert`) and returned to the
caller as a list, so theorems can speak about the alerts an ingestion emits.
-/

namespace ThreatHunterModel

/-- Ordered association list lookup with a default, mirroring how the
Python `defaultdict` maps are read (`m[k]` yields the default when absent). -/
def alGet {α : Type} (m : List (String × α)) (k : String) (d : α) : α :=
  match m with
  | [] => d
  | (k', v) :: rest => if k' = k then v else alGet rest k d

/-- Ordered association list update: overwrite in place, append new keys at
the end (Python dicts preserve insertion order). -/
def alSet {α : Type} (m : List (String × α)) (k : String) (v : α) : List (String × α) :=
  match m with
  | [] => [(k, v)]
  | (k', v') :: rest => if k' = k then (k', v) :: rest else (k', v') :: alSet rest k v

/-- `needle in hay` on Python strings: substring containment. -/
def strContains (hay needle : String) : Bool :=
  (List.range (hay.length + 1)).any (fun i => needle.data.isPrefixOf (hay.data.drop i))

/-- The `SUSPICIOUS_PATHS` constant of the script. -/
def SUSPICIOUS_PATHS : List String :=
  ["/wp-login.php", "/wp-admin", "/admin", "/phpmyadmin", "/.env", "/config.php",
   "/.git", "/.DS_Store", "/server-status", "/actuator", "/jenkins",
   "/boaform/admin/formLogin"]

/-- `round(x, 2)`: round to two decimal places (every score the engine
produces is an exact multiple of 1/2, where this is the identity). -/
def round2 (q : ℚ) : ℚ := (round (q * 100) : ℤ) / 100

/-- `EWMA` dataclass: `alpha`, `mean`, `var`, `initialized`. -/
structure EWMA where
  alpha : ℚ
  mean : ℚ
  var : ℚ
  initialized : Bool
deriving DecidableEq, Repr

/-- `EWMA.update`: first observation sets `mean = x`, `var = 1`; afterwards
`mean ← α·x + (1-α)·mean` and `var ← α·(x-prev)² + (1-α)·var` with
`prev` the pre-update mean. -/
def EWMA.update (e : EWMA) (x : ℚ) : EWMA :=
  if e.initialized = false then
    { e with mean := x, var := 1, initialized := true }
  else
    { e with
      mean := e.alpha * x + (1 - e.alpha) * e.mean,
      var := e.alpha * (x - e.mean) ^ 2 + (1 - e.alpha) * e.var }

/-- `max(self.var, 1e-6)`: the quantity whose square root is the z-score
denominator `std` in `EWMA.zscore`. -/
def EWMA.den2 (e : EWMA) : ℚ := max e.var (1 / 1000000)

/-- `EWMA.zscore`: `std = sqrt(max(var, 1e-6))`; returns `(x-mean)/std` when
`std > 0`, else the fallback `0`. -/
noncomputable def EWMA.zscore (e : EWMA) (x : ℚ) : ℝ :=
  let std : ℝ := Real.sqrt ((e.den2 : ℚ) : ℝ)
  if 0 < std then (((x : ℚ) : ℝ) - ((e.mean : ℚ) : ℝ)) / std else 0

/-- Decidable form of the rate-anomaly trigger `zscore(x) > 3.0`: since the
denominator is `sqrt(den2)` with `den2 > 0`, the comparison is equivalent to
`x - mean > 0` and `(x - mean)² > 9·den2`, which is decidable over `ℚ`.
The equivalence with `3 < zscore` is proved in `zscoreGt3_iff`. -/
def EWMA.zscoreGt3 (e : EWMA) (x : ℚ) : Bool :=
  decide (0 < x - e.mean) && decide (9 * e.den2 < (x - e.mean) ^ 2)

/-- The fresh `EWMA(alpha=self.ewma_alpha)` produced by the `rate_model`
defaultdict: dataclass defaults `mean = 0`, `var = 1`, not initialized. -/
def initEWMA (alpha : ℚ) : EWMA := ⟨alpha, 0, 1, false⟩

/-- `Alert` dataclass (without the wall-clock `ts` stamp and the formatted
`detail` string, which carry no engine state). -/
structure Alert where
  severity : String
  kind : String
  ip : Option String
  score : ℚ
deriving DecidableEq, Repr

/-- Alert construction in `_alert`: the score is rounded to 2 decimals. -/
def mkAlert (severity kind : String) (ip : Option String) (score : ℚ) : Alert :=
  ⟨severity, kind, ip, round2 score⟩

/-- `Stats` dataclass. -/
structure Stats where
  total_lines : ℕ
  total_events : ℕ
  total_alerts : ℕ
  per_ip_count : List (String × ℕ)
  last_alerts : List Alert
deriving DecidableEq, Repr

/-- Append to the `deque(maxlen=100)` alert ring: a push beyond capacity
evicts from the front. -/
def pushRing (l : List Alert) (a : Alert) : List Alert :=
  (l ++ [a]).drop ((l.length + 1) - 100)

/-- A canonical event as consumed by `ingest_event`: the `type` tag plus the
fields the engine reads (`ip`, `path`, `status`, `event`), with the same
absent-field defaults as `ev.get(...)`. -/
structure Event where
  type : String
  ip : Option String
  path : String
  status : String
  event : Option String
deriving DecidableEq, Repr

/-- `ThreatHunter` engine state (the `_stop` threading event, pure process
control, is not part of the detection state). -/
structure ThreatHunter where
  window : ℤ
  threshold : ℤ
  ewma_alpha : ℚ
  stats : Stats
  events_by_ip : List (String × List ℚ)
  failed_logins_by_ip : List (String × List ℚ)
  status_by_ip : List (String × List (String × List ℚ))
  rate_model : List (String × EWMA)
deriving DecidableEq, Repr

/-- `ThreatHunter.__init__`. -/
def ThreatHunter.init (window threshold : ℤ) (ewma_alpha : ℚ) : ThreatHunter :=
  { window := window, threshold := threshold, ewma_alpha := ewma_alpha,
    stats := ⟨0, 0, 0, [], []⟩,
    events_by_ip := [], failed_logins_by_ip := [], status_by_ip := [], rate_model := [] }

/-- `_prune_window`: pop from the front while `now - oldest > window`. -/
def pruneWindow (w : ℚ) (now : ℚ) : List ℚ → List ℚ
  | [] => []
  | t :: rest => if w < now - t then pruneWindow w now rest else t :: rest

/-- `_alert`: count the alert and append it to the bounded ring. -/
def ThreatHunter.alertState (h : ThreatHunter) (a : Alert) : ThreatHunter :=
  { h with stats := { h.stats with
      total_alerts := h.stats.total_alerts + 1,
      last_alerts := pushRing h.stats.last_alerts a } }

/-- `_record_request`: no-op without an ip; otherwise append-and-prune the
all-requests deque, bump `per_ip_count[ip]`, and append-and-prune the
per-status deque. -/
def ThreatHunter.record_request (h : ThreatHunter) (ip : Option String) (status : String)
    (now : ℚ) : ThreatHunter :=
  match ip with
  | none => h
  | some ip =>
    let dq := pruneWindow (h.window : ℚ) now (alGet h.events_by_ip ip [] ++ [now])
    let h := { h with
      events_by_ip := alSet h.events_by_ip ip dq,
      stats := { h.stats with
        per_ip_count := alSet h.stats.per_ip_count ip (alGet h.stats.per_ip_count ip 0 + 1) } }
    let statusMap := alGet h.status_by_ip ip []
    let dqs := pruneWindow (h.window : ℚ) now (alGet statusMap status [] ++ [now])
    { h with status_by_ip := alSet h.status_by_ip ip (alSet statusMap status dqs) }

/-- `_check_status_storm`: prune the per-status deque (writing the pruned
deque back, as the in-place Python prune does); alert when its length
reaches the threshold. -/
def ThreatHunter.check_status_storm (h : ThreatHunter) (ip : Option String) (status : String)
    (now : ℚ) : ThreatHunter × List Alert :=
  match ip with
  | none => (h, [])
  | some ip =>
    let statusMap := alGet h.status_by_ip ip []
    let dq := pruneWindow (h.window : ℚ) now (alGet statusMap status [])
    let h := { h with status_by_ip := alSet h.status_by_ip ip (alSet statusMap status dq) }
    if h.threshold ≤ (dq.length : ℤ) then
      let sev := if status = "404" then "medium" else "high"
      let a := mkAlert sev (status ++ "_storm") (some ip)
        (7 + ((dq.length : ℚ) - (h.threshold : ℚ)))
      (h.alertState a, [a])
    else (h, [])

/-- `_record_failed_login`: append-and-prune the failed-login deque
(`per_ip_count` is not touched here). -/
def ThreatHunter.record_failed_login (h : ThreatHunter) (ip : String) (now : ℚ) :
    ThreatHunter :=
  let dq := pruneWindow (h.window : ℚ) now (alGet h.failed_logins_by_ip ip [] ++ [now])
  { h with failed_logins_by_ip := alSet h.failed_logins_by_ip ip dq }

/-- `_check_bruteforce`: prune the failed-login deque (writing it back);
alert when its length reaches the threshold. -/
def ThreatHunter.check_bruteforce (h : ThreatHunter) (ip : String) (now : ℚ) :
    ThreatHunter × List Alert :=
  let dq := pruneWindow (h.window : ℚ) now (alGet h.failed_logins_by_ip ip [])
  let h := { h with failed_logins_by_ip := alSet h.failed_logins_by_ip ip dq }
  if h.threshold ≤ (dq.length : ℤ) then
    let a := mkAlert "critical" "bruteforce" (some ip)
      (9 + (1 / 2) * ((dq.length : ℚ) - (h.threshold : ℚ)))
    (h.alertState a, [a])
  else (h, [])

/-- `_check_rate_anomaly`: prune the all-requests deque (writing it back),
update the per-ip EWMA with `rate = len/max(window,1)`, and alert when the
post-update z-score exceeds 3 and the count strictly exceeds the threshold.
The branch uses the decidable trigger `zscoreGt3` (shown equivalent to
`3 < zscore` in `zscoreGt3_iff`); when it fires, `7.5 + z > 10.5`, so the
capped score `min(10.0, 7.5 + z)` is exactly `10` (see `min_cap_of_gt3`). -/
def ThreatHunter.check_rate_anomaly (h : ThreatHunter) (ip : Option String) (now : ℚ) :
    ThreatHunter × List Alert :=
  match ip with
  | none => (h, [])
  | some ip =>
    let dq := pruneWindow (h.window : ℚ) now (alGet h.events_by_ip ip [])
    let h := { h with events_by_ip := alSet h.events_by_ip ip dq }
    let rate : ℚ := (dq.length : ℚ) / ((max h.window 1 : ℤ) : ℚ)
    let model := (alGet h.rate_model ip (initEWMA h.ewma_alpha)).update rate
    let h := { h with rate_model := alSet h.rate_model ip model }
    if model.zscoreGt3 rate && decide (h.threshold < (dq.length : ℤ)) then
      let a := mkAlert "high" "rate_anomaly" (some ip) 10
      (h.alertState a, [a])
    else (h, [])

/-- `ingest_event`: bump `total_events`, then dispatch on the `type` tag:
nginx events are recorded and run through the suspicious-path, status-storm
and rate-anomaly rules; syslog failed logins are recorded and run through
the brute-force rule; syslog accepted logins are recorded as a status-200
request. Returns the new state together with the alerts raised. -/
def ThreatHunter.ingest_event (h : ThreatHunter) (ev : Event) (now : ℚ) :
    ThreatHunter × List Alert :=
  let h0 := { h with stats := { h.stats with total_events := h.stats.total_events + 1 } }
  let ip := ev.ip
  if ev.type = "nginx" then
    let h1 := h0.record_request ip ev.status now
    let p1 :=
      if SUSPICIOUS_PATHS.any (fun susp => strContains ev.path susp) then
        let a := mkAlert "medium" "suspicious_path" ip 6
        (h1.alertState a, [a])
      else (h1, [])
    let p2 :=
      if ev.status = "403" ∨ ev.status = "404" then
        p1.1.check_status_storm ip ev.status now
      else (p1.1, [])
    let p3 := p2.1.check_rate_anomaly ip now
    (p3.1, p1.2 ++ (p2.2 ++ p3.2))
  else if ev.type = "syslog" then
    match ip with
    | some i =>
      if ev.event = some "failed_login" then
        (h0.record_failed_login i now).check_bruteforce i now
      else if ev.event = some "accepted_login" then
        (h0.record_request (some i) "200" now, [])
      else (h0, [])
    | none => (h0, [])
  else (h0, [])

/-- Stable descending insertion (by count) used to model Python's stable
`sorted(..., key=count, reverse=True)`. -/
def insDesc (x : String × ℕ) : List (String × ℕ) → List (String × ℕ)
  | [] => [x]
  | y :: ys => if x.2 ≤ y.2 then y :: insDesc x ys else x :: y :: ys

/-- The `Report` dict produced by `to_report` (the `totals` sub-dict is
flattened into its three fields). -/
structure Report where
  generated_at : ℚ
  window_seconds : ℤ
  threshold : ℤ
  lines_processed : ℕ
  events_parsed : ℕ
  alerts : ℕ
  top_ips : List (String × ℕ)
  recent_alerts : List Alert
deriving DecidableEq, Repr

/-- `to_report`: a read-only projection of the current state; `generated_at`
is the wall-clock reading at the call, passed in as `now`. -/
def ThreatHunter.to_report (h : ThreatHunter) (now : ℚ) : Report :=
  { generated_at := now,
    window_seconds := h.window,
    threshold := h.threshold,
    lines_processed := h.stats.total_lines,
    events_parsed := h.stats.total_events,
    alerts := h.stats.total_alerts,
    top_ips := (h.stats.per_ip_count.foldl (fun acc kv => insDesc kv acc) []).take 10,
    recent_alerts := h.stats.last_alerts }

/-- Ingest a list of timestamped events in order, collecting all alerts. -/
def ingestList (h : ThreatHunter) : List (Event × ℚ) → ThreatHunter × List Alert
  | [] => (h, [])
  | (e, t) :: rest =>
    let p := h.ingest_event e t
    let q := ingestList p.1 rest
    (q.1, p.2 ++ q.2)

/-- A syslog failed-login event for entity `ip` (what `parse_syslog` hands
to the engine for a "Failed password" line). -/
def failedLoginEv (ip : String) : Event :=
  ⟨"syslog", some ip, "", "", some "failed_login"⟩

/-- A syslog accepted-login event for entity `ip`. -/
def acceptedLoginEv (ip : String) : Event :=
  ⟨"syslog", some ip, "", "", some "accepted_login"⟩

/-- The in-window per-(entity,status) count the storm rule sees for an
incoming request: the stored per-status deque, with the event's own
timestamp appended, pruned at `now`. -/
def stormCount (h : ThreatHunter) (ip status : String) (now : ℚ) : ℕ :=
  (pruneWindow (h.window : ℚ) now
    (alGet (alGet h.status_by_ip ip []) status [] ++ [now])).length

/-- The in-window all-requests count the rate rule sees for an incoming
request (the event's own timestamp included). -/
def rateCount (h : ThreatHunter) (ip : String) (now : ℚ) : ℕ :=
  (pruneWindow (h.window : ℚ) now (alGet h.events_by_ip ip [] ++ [now])).length

/-- `rate = len(dq) / max(window, 1)` as computed by `_check_rate_anomaly`. -/
def rateValue (h : ThreatHunter) (ip : String) (now : ℚ) : ℚ :=
  (rateCount h ip now : ℚ) / ((max h.window 1 : ℤ) : ℚ)

/-- The entity's rate model after `_check_rate_anomaly` updates it with the
current rate. -/
def rateModelAfter (h : ThreatHunter) (ip : String) (now : ℚ) : EWMA :=
  (alGet h.rate_model ip (initEWMA h.ewma_alpha)).update (rateValue h ip now)

/-- The brute-force alert produced when the in-window failed-login count is
`n`: one `critical`/`bruteforce` alert scored `9 + 0.5·(n - threshold)` when
`n` reaches the threshold, nothing otherwise. -/
def bfEmit (k : ℤ) (ip : String) (n : ℕ) : List Alert :=
  if k ≤ (n : ℤ) then
    [mkAlert "critical" "bruteforce" (some ip) (9 + (1 / 2) * ((n : ℚ) - (k : ℚ)))]
  else []

/-- Alerts of a run of `m` failed logins for one entity, none falling out of
the window, starting from an in-window count of `n`. -/
def bfRun (k : ℤ) (ip : String) (n : ℕ) : ℕ → List Alert
  | 0 => []
  | m + 1 => bfEmit k ip (n + 1) ++ bfRun k ip (n + 1) m

/-! ## Association list and pruning lemmas -/

theorem alGet_alSet_self {α : Type} (m : List (String × α)) (k : String) (v d : α) :
    alGet (alSet m k v) k d = v := by
  induction m with
  | nil => simp [alGet, alSet]
  | cons p rest ih =>
    obtain ⟨k', v'⟩ := p
    by_cases hk : k' = k
    · simp [alSet, alGet, hk]
    · simp [alSet, alGet, hk, ih]

theorem pruneWindow_eq_self (w now : ℚ) (l : List ℚ) (h : ∀ x ∈ l, now - x ≤ w) :
    pruneWindow w now l = l := by
  cases l with
  | nil => rfl
  | cons t r =>
    simp only [pruneWindow]
    rw [if_neg (not_lt.mpr (h t (List.mem_cons_self t r)))]

theorem pruneWindow_idem (w now : ℚ) (l : List ℚ) :
    pruneWindow w now (pruneWindow w now l) = pruneWindow w now l := by
  induction l with
  | nil => rfl
  | cons t r ih =>
    by_cases hc : w < now - t
    · simpa [pruneWindow, hc] using ih
    · simp [pruneWindow, hc]

theorem pruneWindow_eq_filter (w now : ℚ) (ts : List ℚ) (hsort : List.Sorted (· ≤ ·) ts) :
    pruneWindow w now ts = ts.filter (fun t => decide (now - t ≤ w)) := by
  induction ts with
  | nil => rfl
  | cons t r ih =>
    rw [List.sorted_cons] at hsort
    simp only [pruneWindow]
    by_cases hc : w < now - t
    · rw [if_pos hc, List.filter_cons_of_neg (by simpa using not_le.mpr hc), ih hsort.2]
    · have hle : now - t ≤ w := not_lt.mp hc
      have hall : ∀ x ∈ r, (fun t => decide (now - t ≤ w)) x = true := by
        intro x hx
        have := hsort.1 x hx
        simp only [decide_eq_true_eq]
        linarith
      rw [if_neg hc, List.filter_cons_of_pos (by simpa using hle), List.filter_eq_self.mpr hall]

theorem length_filter_mono {α : Type} (l : List α) (p q : α → Bool)
    (h : ∀ a ∈ l, p a = true → q a = true) :
    (l.filter p).length ≤ (l.filter q).length := by
  induction l with
  | nil => simp
  | cons a r ih =>
    have ih' := ih (fun b hb => h b (List.mem_cons_of_mem a hb))
    by_cases hp : p a = true
    · rw [List.filter_cons_of_pos hp, List.filter_cons_of_pos (h a (List.mem_cons_self a r) hp)]
      simpa using ih'
    · rw [List.filter_cons_of_neg (by simpa using hp)]
      by_cases hq : q a = true
      · rw [List.filter_cons_of_pos hq]
        exact le_trans ih' (Nat.le_succ _)
      · rw [List.filter_cons_of_neg (by simpa using hq)]
        exact ih'

/-! ## EWMA lemmas -/

theorem den2_pos (e : EWMA) : 0 < e.den2 :=
  lt_of_lt_of_le (by norm_num) (le_max_right e.var (1 / 1000000))

theorem round2_eq_of_mul_eq_int (q : ℚ) (m : ℤ) (h : q * 100 = (m : ℚ)) :
    round2 q = q := by
  unfold round2
  rw [h, round_intCast]
  rw [div_eq_iff (by norm_num : (100 : ℚ) ≠ 0)]
  exact h.symm

theorem update_var_pos (e : EWMA) (x : ℚ) (h0 : 0 ≤ e.alpha) (h1 : e.alpha < 1)
    (hv : 0 < e.var) : 0 < (e.update x).var := by
  unfold EWMA.update
  by_cases hi : e.initialized = false
  · rw [if_pos hi]
    show (0 : ℚ) < 1
    norm_num
  · rw [if_neg hi]
    have hsq : 0 ≤ e.alpha * (x - e.mean) ^ 2 := mul_nonneg h0 (sq_nonneg _)
    have hrest : 0 < (1 - e.alpha) * e.var := mul_pos (by linarith) hv
    show 0 < e.alpha * (x - e.mean) ^ 2 + (1 - e.alpha) * e.var
    linarith

theorem update_alpha (e : EWMA) (x : ℚ) : (e.update x).alpha = e.alpha := by
  unfold EWMA.update
  by_cases hi : e.initialized = false <;> simp [hi]

theorem foldl_update_var_pos (xs : List ℚ) : ∀ (e : EWMA), 0 ≤ e.alpha → e.alpha < 1 →
    0 < e.var → 0 < (xs.foldl EWMA.update e).var := by
  induction xs with
  | nil => intro e _ _ hv; exact hv
  | cons x r ih =>
    intro e h0 h1 hv
    simp only [List.foldl_cons]
    exact ih (e.update x) (by rw [update_alpha]; exact h0) (by rw [update_alpha]; exact h1)
      (update_var_pos e x h0 h1 hv)

theorem zscore_eq (e : EWMA) (x : ℚ) :
    e.zscore x = (((x - e.mean : ℚ)) : ℝ) / Real.sqrt ((e.den2 : ℚ) : ℝ) := by
  have hd : (0 : ℝ) < ((e.den2 : ℚ) : ℝ) := by exact_mod_cast den2_pos e
  have hs : 0 < Real.sqrt ((e.den2 : ℚ) : ℝ) := Real.sqrt_pos.mpr hd
  simp only [EWMA.zscore]
  rw [if_pos hs]
  push_cast
  ring

theorem zscoreGt3_iff (e : EWMA) (x : ℚ) :
    e.zscoreGt3 x = true ↔ 3 < e.zscore x := by
  have hd : (0 : ℝ) < ((e.den2 : ℚ) : ℝ) := by exact_mod_cast den2_pos e
  have hs : 0 < Real.sqrt ((e.den2 : ℚ) : ℝ) := Real.sqrt_pos.mpr hd
  have hsq : Real.sqrt ((e.den2 : ℚ) : ℝ) ^ 2 = ((e.den2 : ℚ) : ℝ) := Real.sq_sqrt hd.le
  rw [zscore_eq, lt_div_iff hs]
  unfold EWMA.zscoreGt3
  rw [Bool.and_eq_true, decide_eq_true_eq, decide_eq_true_eq]
  constructor
  · rintro ⟨h1, h2⟩
    have h1R : (0 : ℝ) < ((x - e.mean : ℚ) : ℝ) := by exact_mod_cast h1
    have h2R : (9 : ℝ) * ((e.den2 : ℚ) : ℝ) < ((x - e.mean : ℚ) : ℝ) ^ 2 := by exact_mod_cast h2
    have hsqlt : (3 * Real.sqrt ((e.den2 : ℚ) : ℝ)) ^ 2 < ((x - e.mean : ℚ) : ℝ) ^ 2 := by
      rw [mul_pow, hsq]
      nlinarith
    exact lt_of_pow_lt_pow_left 2 h1R.le hsqlt
  · intro h
    have h1R : (0 : ℝ) < ((x - e.mean : ℚ) : ℝ) :=
      lt_of_le_of_lt (by positivity) h
    refine ⟨by exact_mod_cast h1R, ?_⟩
    have hpow : (3 * Real.sqrt ((e.den2 : ℚ) : ℝ)) ^ 2 < ((x - e.mean : ℚ) : ℝ) ^ 2 :=
      pow_lt_pow_left h (by positivity) (by norm_num)
    rw [mul_pow, hsq] at hpow
    have : (9 : ℝ) * ((e.den2 : ℚ) : ℝ) < ((x - e.mean : ℚ) : ℝ) ^ 2 := by nlinarith
    exact_mod_cast this

theorem min_cap_of_gt3 {z : ℝ} (hz : 3 < z) : min (10 : ℝ) (7.5 + z) = 10 :=
  min_eq_left (by linarith)

/-! ## Frame lemmas: which state fields each engine operation leaves alone -/

@[simp] theorem alertState_window (h : ThreatHunter) (a : Alert) :
    (h.alertState a).window = h.window := rfl

@[simp] theorem alertState_threshold (h : ThreatHunter) (a : Alert) :
    (h.alertState a).threshold = h.threshold := rfl

@[simp] theorem alertState_ewma_alpha (h : ThreatHunter) (a : Alert) :
    (h.alertState a).ewma_alpha = h.ewma_alpha := rfl

@[simp] theorem alertState_events_by_ip (h : ThreatHunter) (a : Alert) :
    (h.alertState a).events_by_ip = h.events_by_ip := rfl

@[simp] theorem alertState_failed_logins_by_ip (h : ThreatHunter) (a : Alert) :
    (h.alertState a).failed_logins_by_ip = h.failed_logins_by_ip := rfl

@[simp] theorem alertState_status_by_ip (h : ThreatHunter) (a : Alert) :
    (h.alertState a).status_by_ip = h.status_by_ip := rfl

@[simp] theorem alertState_rate_model (h : ThreatHunter) (a : Alert) :
    (h.alertState a).rate_model = h.rate_model := rfl

@[simp] theorem alertState_per_ip_count (h : ThreatHunter) (a : Alert) :
    (h.alertState a).stats.per_ip_count = h.stats.per_ip_count := rfl

@[simp] theorem alertState_total_events (h : ThreatHunter) (a : Alert) :
    (h.alertState a).stats.total_events = h.stats.total_events := rfl

@[simp] theorem record_request_window (h : ThreatHunter) (ip : Option String) (s : String)
    (now : ℚ) : (h.record_request ip s now).window = h.window := by cases ip <;> rfl

@[simp] theorem record_request_threshold (h : ThreatHunter) (ip : Option String) (s : String)
    (now : ℚ) : (h.record_request ip s now).threshold = h.threshold := by cases ip <;> rfl

@[simp] theorem record_request_ewma_alpha (h : ThreatHunter) (ip : Option String) (s : String)
    (now : ℚ) : (h.record_request ip s now).ewma_alpha = h.ewma_alpha := by cases ip <;> rfl

@[simp] theorem record_request_failed_logins_by_ip (h : ThreatHunter) (ip : Option String)
    (s : String) (now : ℚ) :
    (h.record_request ip s now).failed_logins_by_ip = h.failed_logins_by_ip := by
  cases ip <;> rfl

@[simp] theorem record_request_rate_model (h : ThreatHunter) (ip : Option String) (s : String)
    (now : ℚ) : (h.record_request ip s now).rate_model = h.rate_model := by cases ip <;> rfl

@[simp] theorem record_request_total_events (h : ThreatHunter) (ip : Option String) (s : String)
    (now : ℚ) : (h.record_request ip s now).stats.total_events = h.stats.total_events := by
  cases ip <;> rfl

@[simp] theorem record_request_total_alerts (h : ThreatHunter) (ip : Option String) (s : String)
    (now : ℚ) : (h.record_request ip s now).stats.total_alerts = h.stats.total_alerts := by
  cases ip <;> rfl

@[simp] theorem record_request_last_alerts (h : ThreatHunter) (ip : Option String) (s : String)
    (now : ℚ) : (h.record_request ip s now).stats.last_alerts = h.stats.last_alerts := by
  cases ip <;> rfl

@[simp] theorem record_failed_login_stats (h : ThreatHunter) (ip : String) (now : ℚ) :
    (h.record_failed_login ip now).stats = h.stats := rfl

@[simp] theorem record_failed_login_window (h : ThreatHunter) (ip : String) (now : ℚ) :
    (h.record_failed_login ip now).window = h.window := rfl

@[simp] theorem record_failed_login_threshold (h : ThreatHunter) (ip : String) (now : ℚ) :
    (h.record_failed_login ip now).threshold = h.threshold := rfl

@[simp] theorem record_failed_login_ewma_alpha (h : ThreatHunter) (ip : String) (now : ℚ) :
    (h.record_failed_login ip now).ewma_alpha = h.ewma_alpha := rfl

@[simp] theorem record_failed_login_events_by_ip (h : ThreatHunter) (ip : String) (now : ℚ) :
    (h.record_failed_login ip now).events_by_ip = h.events_by_ip := rfl

@[simp] theorem record_failed_login_status_by_ip (h : ThreatHunter) (ip : String) (now : ℚ) :
    (h.record_failed_login ip now).status_by_ip = h.status_by_ip := rfl

@[simp] theorem record_failed_login_rate_model (h : ThreatHunter) (ip : String) (now : ℚ) :
    (h.record_failed_login ip now).rate_model = h.rate_model := rfl

@[simp] theorem check_status_storm_window (h : ThreatHunter) (ip : Option String) (s : String)
    (now : ℚ) : (h.check_status_storm ip s now).1.window = h.window := by
  cases ip with
  | none => rfl
  | some i => simp only [ThreatHunter.check_status_storm]; split <;> rfl

@[simp] theorem check_status_storm_threshold (h : ThreatHunter) (ip : Option String) (s : String)
    (now : ℚ) : (h.check_status_storm ip s now).1.threshold = h.threshold := by
  cases ip with
  | none => rfl
  | some i => simp only [ThreatHunter.check_status_storm]; split <;> rfl

@[simp] theorem check_status_storm_ewma_alpha (h : ThreatHunter) (ip : Option String)
    (s : String) (now : ℚ) : (h.check_status_storm ip s now).1.ewma_alpha = h.ewma_alpha := by
  cases ip with
  | none => rfl
  | some i => simp only [ThreatHunter.check_status_storm]; split <;> rfl

@[simp] theorem check_status_storm_events_by_ip (h : ThreatHunter) (ip : Option String)
    (s : String) (now : ℚ) :
    (h.check_status_storm ip s now).1.events_by_ip = h.events_by_ip := by
  cases ip with
  | none => rfl
  | some i => simp only [ThreatHunter.check_status_storm]; split <;> rfl

@[simp] theorem check_status_storm_failed_logins_by_ip (h : ThreatHunter) (ip : Option String)
    (s : String) (now : ℚ) :
    (h.check_status_storm ip s now).1.failed_logins_by_ip = h.failed_logins_by_ip := by
  cases ip with
  | none => rfl
  | some i => simp only [ThreatHunter.check_status_storm]; split <;> rfl

@[simp] theorem check_status_storm_rate_model (h : ThreatHunter) (ip : Option String)
    (s : String) (now : ℚ) :
    (h.check_status_storm ip s now).1.rate_model = h.rate_model := by
  cases ip with
  | none => rfl
  | some i => simp only [ThreatHunter.check_status_storm]; split <;> rfl

@[simp] theorem check_status_storm_per_ip_count (h : ThreatHunter) (ip : Option String)
    (s : String) (now : ℚ) :
    (h.check_status_storm ip s now).1.stats.per_ip_count = h.stats.per_ip_count := by
  cases ip with
  | none => rfl
  | some i => simp only [ThreatHunter.check_status_storm]; split <;> rfl

@[simp] theorem check_status_storm_total_events (h : ThreatHunter) (ip : Option String)
    (s : String) (now : ℚ) :
    (h.check_status_storm ip s now).1.stats.total_events = h.stats.total_events := by
  cases ip with
  | none => rfl
  | some i => simp only [ThreatHunter.check_status_storm]; split <;> rfl

@[simp] theorem check_bruteforce_window (h : ThreatHunter) (ip : String) (now : ℚ) :
    (h.check_bruteforce ip now).1.window = h.window := by
  simp only [ThreatHunter.check_bruteforce]; split <;> rfl

@[simp] theorem check_bruteforce_threshold (h : ThreatHunter) (ip : String) (now : ℚ) :
    (h.check_bruteforce ip now).1.threshold = h.threshold := by
  simp only [ThreatHunter.check_bruteforce]; split <;> rfl

@[simp] theorem check_bruteforce_ewma_alpha (h : ThreatHunter) (ip : String) (now : ℚ) :
    (h.check_bruteforce ip now).1.ewma_alpha = h.ewma_alpha := by
  simp only [ThreatHunter.check_bruteforce]; split <;> rfl

@[simp] theorem check_bruteforce_events_by_ip (h : ThreatHunter) (ip : String) (now : ℚ) :
    (h.check_bruteforce ip now).1.events_by_ip = h.events_by_ip := by
  simp only [ThreatHunter.check_bruteforce]; split <;> rfl

@[simp] theorem check_bruteforce_status_by_ip (h : ThreatHunter) (ip : String) (now : ℚ) :
    (h.check_bruteforce ip now).1.status_by_ip = h.status_by_ip := by
  simp only [ThreatHunter.check_bruteforce]; split <;> rfl

@[simp] theorem check_bruteforce_rate_model (h : ThreatHunter) (ip : String) (now : ℚ) :
    (h.check_bruteforce ip now).1.rate_model = h.rate_model := by
  simp only [ThreatHunter.check_bruteforce]; split <;> rfl

@[simp] theorem check_bruteforce_per_ip_count (h : ThreatHunter) (ip : String) (now : ℚ) :
    (h.check_bruteforce ip now).1.stats.per_ip_count = h.stats.per_ip_count := by
  simp only [ThreatHunter.check_bruteforce]; split <;> rfl

@[simp] theorem check_bruteforce_total_events (h : ThreatHunter) (ip : String) (now : ℚ) :
    (h.check_bruteforce ip now).1.stats.total_events = h.stats.total_events := by
  simp only [ThreatHunter.check_bruteforce]; split <;> rfl

@[simp] theorem check_rate_anomaly_window (h : ThreatHunter) (ip : Option String) (now : ℚ) :
    (h.check_rate_anomaly ip now).1.window = h.window := by
  cases ip with
  | none => rfl
  | some i => simp only [ThreatHunter.check_rate_anomaly]; split <;> rfl

@[simp] theorem check_rate_anomaly_threshold (h : ThreatHunter) (ip : Option String) (now : ℚ) :
    (h.check_rate_anomaly ip now).1.threshold = h.threshold := by
  cases ip with
  | none => rfl
  | some i => simp only [ThreatHunter.check_rate_anomaly]; split <;> rfl

@[simp] theorem check_rate_anomaly_ewma_alpha (h : ThreatHunter) (ip : Option String)
    (now : ℚ) : (h.check_rate_anomaly ip now).1.ewma_alpha = h.ewma_alpha := by
  cases ip with
  | none => rfl
  | some i => simp only [ThreatHunter.check_rate_anomaly]; split <;> rfl

@[simp] theorem check_rate_anomaly_failed_logins_by_ip (h : ThreatHunter) (ip : Option String)
    (now : ℚ) :
    (h.check_rate_anomaly ip now).1.failed_logins_by_ip = h.failed_logins_by_ip := by
  cases ip with
  | none => rfl
  | some i => simp only [ThreatHunter.check_rate_anomaly]; split <;> rfl

@[simp] theorem check_rate_anomaly_status_by_ip (h : ThreatHunter) (ip : Option String)
    (now : ℚ) : (h.check_rate_anomaly ip now).1.status_by_ip = h.status_by_ip := by
  cases ip with
  | none => rfl
  | some i => simp only [ThreatHunter.check_rate_anomaly]; split <;> rfl

@[simp] theorem check_rate_anomaly_per_ip_count (h : ThreatHunter) (ip : Option String)
    (now : ℚ) :
    (h.check_rate_anomaly ip now).1.stats.per_ip_count = h.stats.per_ip_count := by
  cases ip with
  | none => rfl
  | some i => simp only [ThreatHunter.check_rate_anomaly]; split <;> rfl

@[simp] theorem check_rate_anomaly_total_events (h : ThreatHunter) (ip : Option String)
    (now : ℚ) :
    (h.check_rate_anomaly ip now).1.stats.total_events = h.stats.total_events := by
  cases ip with
  | none => rfl
  | some i => simp only [ThreatHunter.check_rate_anomaly]; split <;> rfl

@[simp] theorem mkAlert_kind (s k : String) (ip : Option String) (q : ℚ) :
    (mkAlert s k ip q).kind = k := rfl

@[simp] theorem fst_ite {α β : Type} {c : Prop} [Decidable c] (a b : α × β) :
    (if c then a else b).1 = if c then a.1 else b.1 := by split <;> rfl

@[simp] theorem snd_ite {α β : Type} {c : Prop} [Decidable c] (a b : α × β) :
    (if c then a else b).2 = if c then a.2 else b.2 := by split <;> rfl

@[simp] theorem window_ite {c : Prop} [Decidable c] (a b : ThreatHunter) :
    (if c then a else b).window = if c then a.window else b.window := by split <;> rfl

@[simp] theorem threshold_ite {c : Prop} [Decidable c] (a b : ThreatHunter) :
    (if c then a else b).threshold = if c then a.threshold else b.threshold := by
  split <;> rfl

@[simp] theorem ewma_alpha_ite {c : Prop} [Decidable c] (a b : ThreatHunter) :
    (if c then a else b).ewma_alpha = if c then a.ewma_alpha else b.ewma_alpha := by
  split <;> rfl

@[simp] theorem stats_ite {c : Prop} [Decidable c] (a b : ThreatHunter) :
    (if c then a else b).stats = if c then a.stats else b.stats := by split <;> rfl

@[simp] theorem total_events_ite {c : Prop} [Decidable c] (a b : Stats) :
    (if c then a else b).total_events = if c then a.total_events else b.total_events := by
  split <;> rfl

@[simp] theorem total_alerts_ite {c : Prop} [Decidable c] (a b : Stats) :
    (if c then a else b).total_alerts = if c then a.total_alerts else b.total_alerts := by
  split <;> rfl

@[simp] theorem per_ip_count_ite {c : Prop} [Decidable c] (a b : Stats) :
    (if c then a else b).per_ip_count = if c then a.per_ip_count else b.per_ip_count := by
  split <;> rfl

@[simp] theorem last_alerts_ite {c : Prop} [Decidable c] (a b : Stats) :
    (if c then a else b).last_alerts = if c then a.last_alerts else b.last_alerts := by
  split <;> rfl

@[simp] theorem events_by_ip_ite {c : Prop} [Decidable c] (a b : ThreatHunter) :
    (if c then a else b).events_by_ip = if c then a.events_by_ip else b.events_by_ip := by
  split <;> rfl

@[simp] theorem failed_logins_by_ip_ite {c : Prop} [Decidable c] (a b : ThreatHunter) :
    (if c then a else b).failed_logins_by_ip
      = if c then a.failed_logins_by_ip else b.failed_logins_by_ip := by
  split <;> rfl

@[simp] theorem status_by_ip_ite {c : Prop} [Decidable c] (a b : ThreatHunter) :
    (if c then a else b).status_by_ip = if c then a.status_by_ip else b.status_by_ip := by
  split <;> rfl

@[simp] theorem rate_model_ite {c : Prop} [Decidable c] (a b : ThreatHunter) :
    (if c then a else b).rate_model = if c then a.rate_model else b.rate_model := by
  split <;> rfl

@[simp] theorem record_request_per_ip_some (h : ThreatHunter) (i s : String) (now : ℚ) :
    (h.record_request (some i) s now).stats.per_ip_count
      = alSet h.stats.per_ip_count i (alGet h.stats.per_ip_count i 0 + 1) := rfl

@[simp] theorem record_request_events_some (h : ThreatHunter) (i s : String) (now : ℚ) :
    (h.record_request (some i) s now).events_by_ip
      = alSet h.events_by_ip i
          (pruneWindow (h.window : ℚ) now (alGet h.events_by_ip i [] ++ [now])) := rfl

@[simp] theorem record_request_status_some (h : ThreatHunter) (i s : String) (now : ℚ) :
    (h.record_request (some i) s now).status_by_ip
      = alSet h.status_by_ip i (alSet (alGet h.status_by_ip i []) s
          (pruneWindow (h.window : ℚ) now
            (alGet (alGet h.status_by_ip i []) s [] ++ [now]))) := rfl

@[simp] theorem ingest_event_window (h : ThreatHunter) (ev : Event) (now : ℚ) :
    (h.ingest_event ev now).1.window = h.window := by
  simp only [ThreatHunter.ingest_event]
  split
  · simp
  · split
    · split <;> simp
    · rfl

@[simp] theorem ingest_event_threshold (h : ThreatHunter) (ev : Event) (now : ℚ) :
    (h.ingest_event ev now).1.threshold = h.threshold := by
  simp only [ThreatHunter.ingest_event]
  split
  · simp
  · split
    · split <;> simp
    · rfl

@[simp] theorem ingest_event_ewma_alpha (h : ThreatHunter) (ev : Event) (now : ℚ) :
    (h.ingest_event ev now).1.ewma_alpha = h.ewma_alpha := by
  simp only [ThreatHunter.ingest_event]
  split
  · simp
  · split
    · split <;> simp
    · rfl

/-! ## Claims -/

/-- Claim C2 (corrected): `to_report` is a pure read of the engine state —
its translation takes no state output — and two calls with no intervening
ingestion return Reports identical in every field except the
`generated_at` wall-clock stamp, which carries each call's own clock
reading. -/
theorem claim_C2 (h : ThreatHunter) (n1 n2 : ℚ) :
    { h.to_report n1 with generated_at := 0 } =
      { h.to_report n2 with generated_at := 0 } := rfl

/-- Claim C2 counterexample: `to_report` stamps `generated_at` with the
wall clock at the call, so two consecutive calls at clock readings 0 and 1
do not return identical Reports. -/
theorem claim_C2_cex :
    (ThreatHunter.init 300 5 (3 / 10)).to_report 0 ≠
      (ThreatHunter.init 300 5 (3 / 10)).to_report 1 := by
  intro hEq
  have h1 := congrArg Report.generated_at hEq
  norm_num [ThreatHunter.to_report] at h1

/-- Claim C10 (confirmed): for every rate-model state (any mean, any
variance, initialized or not) and every input, the z-score denominator
`std = sqrt(max(var, 1e-6))` is strictly positive, so the `std > 0` guard
always holds and the fallback branch of `zscore` returning 0 is
unreachable: `zscore` always returns `(x - mean)/std`. -/
theorem claim_C10 (e : EWMA) (x : ℚ) :
    0 < Real.sqrt ((e.den2 : ℚ) : ℝ) ∧
    e.zscore x = (((x : ℚ) : ℝ) - ((e.mean : ℚ) : ℝ)) / Real.sqrt ((e.den2 : ℚ) : ℝ) := by
  have hd : (0 : ℝ) < ((e.den2 : ℚ) : ℝ) := by exact_mod_cast den2_pos e
  have hs : 0 < Real.sqrt ((e.den2 : ℚ) : ℝ) := Real.sqrt_pos.mpr hd
  refine ⟨hs, ?_⟩
  simp only [EWMA.zscore]
  rw [if_pos hs]

theorem foldl_update_zero_const (n : ℕ) :
    (List.replicate (n + 1) (0 : ℚ)).foldl EWMA.update (initEWMA (3 / 10))
      = ⟨3 / 10, 0, (7 / 10) ^ n, true⟩ := by
  induction n with
  | zero =>
    show EWMA.update (initEWMA (3 / 10)) 0 = _
    simp [EWMA.update, initEWMA]
  | succ m ih =>
    rw [List.replicate_succ' (m + 1), List.foldl_append, ih]
    show EWMA.update ⟨3 / 10, 0, (7 / 10) ^ m, true⟩ 0 = ⟨3 / 10, 0, (7 / 10) ^ (m + 1), true⟩
    simp only [EWMA.update, EWMA.mk.injEq]
    norm_num
    ring

/-- Claim C4 counterexample: with the default `alpha = 0.3`, sixty constant
observations drive the stored variance (here `0.7⁵⁹`) strictly below the
`1e-6` floor, so `variance ≥ 1e-6` is not an invariant maintained by
`update`. -/
theorem claim_C4_cex :
    ((List.replicate 60 (0 : ℚ)).foldl EWMA.update (initEWMA (3 / 10))).var
      < 1 / 1000000 := by
  rw [show (60 : ℕ) = 59 + 1 from rfl, foldl_update_zero_const 59]
  show (7 / 10 : ℚ) ^ 59 < 1 / 1000000
  norm_num

/-- Claim C4 (corrected): across any sequence of updates the variance stays
strictly positive whenever `0 ≤ α < 1` (it can, however, sink below the
`1e-6` floor, which is applied only at read time inside `zscore`); the
z-score's squared denominator `max(var, 1e-6)` is always at least `1e-6`. -/
theorem claim_C4 (a : ℚ) (xs : List ℚ) (h0 : 0 ≤ a) (h1 : a < 1) :
    0 < (xs.foldl EWMA.update (initEWMA a)).var ∧
    (1 / 1000000 : ℚ) ≤ (xs.foldl EWMA.update (initEWMA a)).den2 :=
  ⟨foldl_update_var_pos xs (initEWMA a) h0 h1 (by norm_num [initEWMA]),
   le_max_right _ _⟩

/-- Claim C4 witness: the corrected invariant at `α = 0.3` over the
observation sequence `[5, 7]`. -/
theorem claim_C4_witness :
    0 < (([5, 7] : List ℚ).foldl EWMA.update (initEWMA (3 / 10))).var ∧
    (1 / 1000000 : ℚ) ≤ (([5, 7] : List ℚ).foldl EWMA.update (initEWMA (3 / 10))).den2 :=
  claim_C4 (3 / 10) [5, 7] (by norm_num) (by norm_num)

/-- Claim C5 counterexample: pruning keeps a timestamp that is exactly
`window` old (`now - t = W` is retained, since eviction requires
`now - t > W`): with `W = 60`, one recorded timestamp `0`, queried at
`now = 60`, the windowed count is 1 while the number of timestamps with
`now - t < W` is 0. -/
theorem claim_C5_cex :
    pruneWindow 60 60 [(0 : ℚ)] = [0] ∧
    ¬ (pruneWindow 60 60 [(0 : ℚ)]).length
        = (([0] : List ℚ).filter (fun t => decide ((60 : ℚ) - t < 60))).length := by
  norm_num [pruneWindow, List.filter]

/-- Claim C5 (corrected): for timestamps recorded in nondecreasing order,
pruning at query time `now` keeps exactly the timestamps with
`now - t ≤ W` (weak, not strict, inequality), so the windowed count equals
the number of such timestamps; and advancing `now` monotonically never
increases the count. -/
theorem claim_C5 (w now now' : ℚ) (ts : List ℚ) (hw : 0 < w)
    (hsort : List.Sorted (· ≤ ·) ts) (hmono : now ≤ now') :
    pruneWindow w now ts = ts.filter (fun t => decide (now - t ≤ w)) ∧
    (pruneWindow w now' ts).length ≤ (pruneWindow w now ts).length := by
  refine ⟨pruneWindow_eq_filter w now ts hsort, ?_⟩
  rw [pruneWindow_eq_filter w now ts hsort, pruneWindow_eq_filter w now' ts hsort]
  refine length_filter_mono ts _ _ ?_
  intro a _ ha
  simp only [decide_eq_true_eq] at ha ⊢
  linarith

/-- Claim C5 witness: the pruned-count characterization and monotonicity at
`W = 60`, timestamps `[0, 5]`, query times 10 and then 20. -/
theorem claim_C5_witness :
    pruneWindow 60 10 [(0 : ℚ), 5]
      = ([0, 5] : List ℚ).filter (fun t => decide ((10 : ℚ) - t ≤ 60)) ∧
    (pruneWindow 60 20 [(0 : ℚ), 5]).length ≤ (pruneWindow 60 10 [(0 : ℚ), 5]).length :=
  claim_C5 60 10 20 [0, 5] (by norm_num) (by decide) (by norm_num)

/-- Claim C1 (corrected): an event carrying no entity (`ip = none`) touches
no per-entity state — the all-requests, failed-login and per-status deques,
the rate models and `per_ip_count` are all unchanged — and bumps the global
`total_events`; no storm, brute-force or rate-anomaly alert can fire, but a
nginx RequestEvent whose path contains a suspicious substring still emits
one `suspicious_path` alert (carrying no entity), because `_alert` is
invoked for suspicious paths without any entity guard. -/
theorem claim_C1 (h : ThreatHunter) (ev : Event) (now : ℚ) (hip : ev.ip = none) :
    (h.ingest_event ev now).1.events_by_ip = h.events_by_ip ∧
    (h.ingest_event ev now).1.failed_logins_by_ip = h.failed_logins_by_ip ∧
    (h.ingest_event ev now).1.status_by_ip = h.status_by_ip ∧
    (h.ingest_event ev now).1.rate_model = h.rate_model ∧
    (h.ingest_event ev now).1.stats.per_ip_count = h.stats.per_ip_count ∧
    (h.ingest_event ev now).1.stats.total_events = h.stats.total_events + 1 ∧
    (h.ingest_event ev now).2 =
      (if ev.type = "nginx" ∧ SUSPICIOUS_PATHS.any (fun s => strContains ev.path s) = true
       then [mkAlert "medium" "suspicious_path" none 6] else []) := by
  by_cases hty : ev.type = "nginx"
  · by_cases hsusp : SUSPICIOUS_PATHS.any (fun s => strContains ev.path s) = true
    · have hkey : h.ingest_event ev now =
        (({ h with stats :=
              { h.stats with total_events := h.stats.total_events + 1 } }).alertState
            (mkAlert "medium" "suspicious_path" none 6),
          [mkAlert "medium" "suspicious_path" none 6]) := by
        simp [ThreatHunter.ingest_event, hip, hty, hsusp, ThreatHunter.record_request,
          ThreatHunter.check_status_storm, ThreatHunter.check_rate_anomaly]
      rw [hkey]
      simp [ThreatHunter.alertState, hty, hsusp]
    · have hkey : h.ingest_event ev now =
        ({ h with stats :=
            { h.stats with total_events := h.stats.total_events + 1 } }, []) := by
        simp [ThreatHunter.ingest_event, hip, hty, hsusp, ThreatHunter.record_request,
          ThreatHunter.check_status_storm, ThreatHunter.check_rate_anomaly]
      rw [hkey]
      simp [hty, hsusp]
  · have hkey : h.ingest_event ev now =
      ({ h with stats :=
          { h.stats with total_events := h.stats.total_events + 1 } }, []) := by
      simp [ThreatHunter.ingest_event, hip, hty]
    rw [hkey]
    simp [hty]

/-- Claim C1 counterexample: a nginx RequestEvent with no entity but the
suspicious path `/wp-admin` does produce an alert (a `suspicious_path`
alert with `ip = None`), contradicting "no alert of any kind". -/
theorem claim_C1_cex :
    ((ThreatHunter.init 300 5 (3 / 10)).ingest_event
        ⟨"nginx", none, "/wp-admin", "200", none⟩ 0).2
      = [mkAlert "medium" "suspicious_path" none 6] ∧
    ((ThreatHunter.init 300 5 (3 / 10)).ingest_event
        ⟨"nginx", none, "/wp-admin", "200", none⟩ 0).2 ≠ [] := by
  have hsusp : SUSPICIOUS_PATHS.any (fun s => strContains "/wp-admin" s) = true := by decide
  constructor
  · simp [ThreatHunter.ingest_event, ThreatHunter.record_request,
      ThreatHunter.check_status_storm, ThreatHunter.check_rate_anomaly, hsusp]
  · simp [ThreatHunter.ingest_event, ThreatHunter.record_request,
      ThreatHunter.check_status_storm, ThreatHunter.check_rate_anomaly, hsusp]

/-- Claim C1 witness: the corrected statement at a concrete input — the
initial engine ingesting an entity-less nginx request for `/wp-admin`. -/
theorem claim_C1_witness :
    ((ThreatHunter.init 300 5 (3 / 10)).ingest_event
        ⟨"nginx", none, "/wp-admin", "200", none⟩ 0).1.events_by_ip
      = (ThreatHunter.init 300 5 (3 / 10)).events_by_ip ∧
    ((ThreatHunter.init 300 5 (3 / 10)).ingest_event
        ⟨"nginx", none, "/wp-admin", "200", none⟩ 0).1.failed_logins_by_ip
      = (ThreatHunter.init 300 5 (3 / 10)).failed_logins_by_ip ∧
    ((ThreatHunter.init 300 5 (3 / 10)).ingest_event
        ⟨"nginx", none, "/wp-admin", "200", none⟩ 0).1.status_by_ip
      = (ThreatHunter.init 300 5 (3 / 10)).status_by_ip ∧
    ((ThreatHunter.init 300 5 (3 / 10)).ingest_event
        ⟨"nginx", none, "/wp-admin", "200", none⟩ 0).1.rate_model
      = (ThreatHunter.init 300 5 (3 / 10)).rate_model ∧
    ((ThreatHunter.init 300 5 (3 / 10)).ingest_event
        ⟨"nginx", none, "/wp-admin", "200", none⟩ 0).1.stats.per_ip_count
      = (ThreatHunter.init 300 5 (3 / 10)).stats.per_ip_count ∧
    ((ThreatHunter.init 300 5 (3 / 10)).ingest_event
        ⟨"nginx", none, "/wp-admin", "200", none⟩ 0).1.stats.total_events
      = (ThreatHunter.init 300 5 (3 / 10)).stats.total_events + 1 ∧
    ((ThreatHunter.init 300 5 (3 / 10)).ingest_event
        ⟨"nginx", none, "/wp-admin", "200", none⟩ 0).2 =
      (if (⟨"nginx", none, "/wp-admin", "200", none⟩ : Event).type = "nginx" ∧
          SUSPICIOUS_PATHS.any
            (fun s => strContains (⟨"nginx", none, "/wp-admin", "200", none⟩ : Event).path s)
            = true
       then [mkAlert "medium" "suspicious_path" none 6] else []) :=
  claim_C1 (ThreatHunter.init 300 5 (3 / 10)) ⟨"nginx", none, "/wp-admin", "200", none⟩ 0 rfl

/-- Claim C3 (corrected): every ingested event bumps `total_events` by
exactly one regardless of alerting outcome; `per_ip_count[entity]` is
bumped by exactly one precisely when the event is recorded as a request —
a nginx RequestEvent carrying an entity, or an accepted-login AuthEvent
carrying an entity — while failed-login AuthEvents (and all other events)
leave `per_ip_count` untouched. -/
theorem claim_C3 (h : ThreatHunter) (ev : Event) (now : ℚ) :
    (h.ingest_event ev now).1.stats.total_events = h.stats.total_events + 1 ∧
    (ev.ip = none → (h.ingest_event ev now).1.stats.per_ip_count = h.stats.per_ip_count) ∧
    (∀ i, ev.ip = some i →
      (h.ingest_event ev now).1.stats.per_ip_count =
        (if ev.type = "nginx" ∨ (ev.type = "syslog" ∧ ev.event = some "accepted_login")
         then alSet h.stats.per_ip_count i (alGet h.stats.per_ip_count i 0 + 1)
         else h.stats.per_ip_count)) := by
  refine ⟨?_, ?_, ?_⟩
  · simp only [ThreatHunter.ingest_event]
    split
    · simp
    · split
      · split <;> simp
      · rfl
  · intro hip
    simp only [ThreatHunter.ingest_event, hip]
    split
    · simp [ThreatHunter.record_request, ThreatHunter.check_status_storm,
        ThreatHunter.check_rate_anomaly]
    · split <;> rfl
  · intro i hip
    by_cases hty : ev.type = "nginx"
    · rw [if_pos (Or.inl hty)]
      simp [ThreatHunter.ingest_event, hip, hty]
    · by_cases hsl : ev.type = "syslog"
      · by_cases hacc : ev.event = some "accepted_login"
        · rw [if_pos (Or.inr ⟨hsl, hacc⟩)]
          by_cases hfl : ev.event = some "failed_login"
          · rw [hacc] at hfl
            simp at hfl
          · simp [ThreatHunter.ingest_event, hip, hty, hsl, hacc, hfl]
        · rw [if_neg (by
            rintro (hn | ⟨_, ha⟩)
            · exact hty hn
            · exact hacc ha)]
          by_cases hfl : ev.event = some "failed_login"
          · simp [ThreatHunter.ingest_event, hip, hty, hsl, hfl]
          · simp [ThreatHunter.ingest_event, hip, hty, hsl, hacc, hfl]
      · rw [if_neg (by
          rintro (hn | ⟨hs, _⟩)
          · exact hty hn
          · exact hsl hs)]
        simp [ThreatHunter.ingest_event, hip, hty, hsl]

/-- Claim C3 counterexample: a failed-login AuthEvent that carries the
entity `1.2.3.4` bumps `total_events` but does not touch
`per_ip_count["1.2.3.4"]` — only `_record_request` increments it, and
failed logins are recorded via `_record_failed_login`. -/
theorem claim_C3_cex :
    (((ThreatHunter.init 300 5 (3 / 10)).ingest_event
        (failedLoginEv "1.2.3.4") 0).1.stats.total_events
      = (ThreatHunter.init 300 5 (3 / 10)).stats.total_events + 1) ∧
    alGet (((ThreatHunter.init 300 5 (3 / 10)).ingest_event
        (failedLoginEv "1.2.3.4") 0).1.stats.per_ip_count) "1.2.3.4" 0
      = 0 := by
  constructor
  · simp [ThreatHunter.ingest_event, failedLoginEv, ThreatHunter.record_failed_login,
      ThreatHunter.check_bruteforce, ThreatHunter.init]
  · simp [ThreatHunter.ingest_event, failedLoginEv, ThreatHunter.record_failed_login,
      ThreatHunter.check_bruteforce, ThreatHunter.init, alGet]

/-- Claim C3 witness: the corrected accounting at a concrete input — the
initial engine ingesting a failed login carrying entity `1.2.3.4`. -/
theorem claim_C3_witness :
    (((ThreatHunter.init 300 5 (3 / 10)).ingest_event (failedLoginEv "1.2.3.4") 0).1.stats.total_events
      = (ThreatHunter.init 300 5 (3 / 10)).stats.total_events + 1) ∧
    ((failedLoginEv "1.2.3.4").ip = none →
      ((ThreatHunter.init 300 5 (3 / 10)).ingest_event (failedLoginEv "1.2.3.4") 0).1.stats.per_ip_count
        = (ThreatHunter.init 300 5 (3 / 10)).stats.per_ip_count) ∧
    (∀ i, (failedLoginEv "1.2.3.4").ip = some i →
      ((ThreatHunter.init 300 5 (3 / 10)).ingest_event (failedLoginEv "1.2.3.4") 0).1.stats.per_ip_count =
        (if (failedLoginEv "1.2.3.4").type = "nginx" ∨
            ((failedLoginEv "1.2.3.4").type = "syslog" ∧
              (failedLoginEv "1.2.3.4").event = some "accepted_login")
         then alSet (ThreatHunter.init 300 5 (3 / 10)).stats.per_ip_count i
                (alGet (ThreatHunter.init 300 5 (3 / 10)).stats.per_ip_count i 0 + 1)
         else (ThreatHunter.init 300 5 (3 / 10)).stats.per_ip_count)) :=
  claim_C3 (ThreatHunter.init 300 5 (3 / 10)) (failedLoginEv "1.2.3.4") 0

/-- Claim C9 (corrected): an accepted-login AuthEvent with an entity is
recorded as a status-200 request: it emits no alert, bumps `total_events`
and `per_ip_count[entity]`, appends `now` to the entity's all-requests
deque and also to the entity's "200" per-status deque (pruning both), and
leaves the failed-login counters, the rate models, `total_alerts` and the
alert ring unchanged. The claim's assertion that the per-status counters
are untouched fails for the "200" counter. -/
theorem claim_C9 (h : ThreatHunter) (ev : Event) (i : String) (now : ℚ)
    (hty : ev.type = "syslog") (hev : ev.event = some "accepted_login")
    (hip : ev.ip = some i) :
    (h.ingest_event ev now).2 = [] ∧
    (h.ingest_event ev now).1.failed_logins_by_ip = h.failed_logins_by_ip ∧
    (h.ingest_event ev now).1.rate_model = h.rate_model ∧
    (h.ingest_event ev now).1.stats.total_alerts = h.stats.total_alerts ∧
    (h.ingest_event ev now).1.stats.last_alerts = h.stats.last_alerts ∧
    (h.ingest_event ev now).1.stats.total_events = h.stats.total_events + 1 ∧
    (h.ingest_event ev now).1.stats.per_ip_count
      = alSet h.stats.per_ip_count i (alGet h.stats.per_ip_count i 0 + 1) ∧
    (h.ingest_event ev now).1.events_by_ip
      = alSet h.events_by_ip i
          (pruneWindow (h.window : ℚ) now (alGet h.events_by_ip i [] ++ [now])) ∧
    (h.ingest_event ev now).1.status_by_ip
      = alSet h.status_by_ip i (alSet (alGet h.status_by_ip i []) "200"
          (pruneWindow (h.window : ℚ) now
            (alGet (alGet h.status_by_ip i []) "200" [] ++ [now]))) := by
  have hfl : ¬ ev.event = some "failed_login" := by rw [hev]; simp
  have hkey : h.ingest_event ev now =
      (({ h with stats :=
          { h.stats with total_events := h.stats.total_events + 1 } }).record_request
        (some i) "200" now, []) := by
    simp [ThreatHunter.ingest_event, hip, hty, hev, hfl]
  rw [hkey]
  simp

/-- Claim C9 counterexample: ingesting an accepted login for `1.2.3.4`
into the fresh engine changes the per-status counters — the "200" deque
for that entity receives the event's timestamp. -/
theorem claim_C9_cex :
    ((ThreatHunter.init 300 5 (3 / 10)).ingest_event (acceptedLoginEv "1.2.3.4") 0).1.status_by_ip
      = [("1.2.3.4", [("200", [0])])] ∧
    ((ThreatHunter.init 300 5 (3 / 10)).ingest_event (acceptedLoginEv "1.2.3.4") 0).1.status_by_ip
      ≠ (ThreatHunter.init 300 5 (3 / 10)).status_by_ip := by
  have hpr : pruneWindow (300 : ℚ) 0 [(0 : ℚ)] = [0] := by
    norm_num [pruneWindow]
  constructor
  · simp [ThreatHunter.ingest_event, acceptedLoginEv, ThreatHunter.record_request,
      ThreatHunter.init, alGet, alSet, hpr]
  · simp [ThreatHunter.ingest_event, acceptedLoginEv, ThreatHunter.record_request,
      ThreatHunter.init, alGet, alSet, hpr]

theorem filter_ite {c : Prop} [Decidable c] (p : Alert → Bool) (a b : List Alert) :
    (if c then a else b).filter p = if c then a.filter p else b.filter p := by
  split <;> rfl

theorem filter_eq_nil_of (l : List Alert) (p : Alert → Bool) (h : ∀ a ∈ l, p a = false) :
    l.filter p = [] := by
  induction l with
  | nil => rfl
  | cons a r ih =>
    rw [List.filter_cons_of_neg (by simp [h a (List.mem_cons_self a r)]),
      ih (fun b hb => h b (List.mem_cons_of_mem a hb))]

theorem check_status_storm_spec (g : ThreatHunter) (ip s : String) (now : ℚ) :
    (g.check_status_storm (some ip) s now).2
      = (if g.threshold
            ≤ ((pruneWindow (g.window : ℚ) now (alGet (alGet g.status_by_ip ip []) s [])).length
                : ℤ)
         then [mkAlert (if s = "404" then "medium" else "high") (s ++ "_storm") (some ip)
                (7 + (((pruneWindow (g.window : ℚ) now
                          (alGet (alGet g.status_by_ip ip []) s [])).length : ℚ)
                      - (g.threshold : ℚ)))]
         else []) := by
  simp only [ThreatHunter.check_status_storm]
  split <;> rfl

theorem check_rate_anomaly_kinds (g : ThreatHunter) (ip : String) (now : ℚ) :
    ∀ a ∈ (g.check_rate_anomaly (some ip) now).2, a.kind = "rate_anomaly" := by
  simp only [ThreatHunter.check_rate_anomaly]
  split
  · intro a ha
    simp only [List.mem_singleton] at ha
    subst ha
    rfl
  · intro a ha
    simp at ha

/-- Claim C7 (confirmed): for a RequestEvent carrying an entity with status
403 or 404, the storm rule emits exactly one alert for that event when the
in-window per-status count (the stored deque with the current timestamp
appended, pruned at `now`) reaches the threshold — `kind = {status}_storm`,
`severity = high` for 403 and `medium` for 404, and
`score = 7.0 + (count - threshold)` — and emits no storm alert below the
threshold. -/
theorem claim_C7 (h : ThreatHunter) (ev : Event) (ip : String) (now : ℚ)
    (hty : ev.type = "nginx") (hip : ev.ip = some ip)
    (hst : ev.status = "403" ∨ ev.status = "404") :
    (h.ingest_event ev now).2.filter (fun a => a.kind == ev.status ++ "_storm")
      = (if h.threshold ≤ ((stormCount h ip ev.status now : ℕ) : ℤ) then
          [mkAlert (if ev.status = "404" then "medium" else "high") (ev.status ++ "_storm")
            (some ip) (7 + ((stormCount h ip ev.status now : ℚ) - (h.threshold : ℚ)))]
         else []) := by
  have hA : (("suspicious_path" : String) == ev.status ++ "_storm") = false := by
    rcases hst with hs | hs <;> rw [hs] <;> decide
  have hB : (("rate_anomaly" : String) == ev.status ++ "_storm") = false := by
    rcases hst with hs | hs <;> rw [hs] <;> decide
  have hrate : ∀ (g : ThreatHunter),
      (g.check_rate_anomaly (some ip) now).2.filter
        (fun a => a.kind == ev.status ++ "_storm") = [] := by
    intro g
    refine filter_eq_nil_of _ _ ?_
    intro a ha
    rw [check_rate_anomaly_kinds g ip now a ha]
    exact hB
  simp only [ThreatHunter.ingest_event]
  rw [hip, if_pos hty, if_pos hst]
  simp [List.filter_append, filter_ite, check_status_storm_spec, hA, hB, hrate,
    stormCount, alGet_alSet_self, pruneWindow_idem, List.filter_cons, List.filter_nil]

/-- Claim C7 witness: with `window = 60`, `threshold = 3` and two 404s for
`9.9.9.9` already recorded at t = 0, 1, ingesting a third 404 at t = 2
yields exactly one `404_storm` alert of severity `medium` and score 7. -/
theorem claim_C7_witness :
    (({ ThreatHunter.init 60 3 (3 / 10) with
          status_by_ip := [("9.9.9.9", [("404", [0, 1])])] } : ThreatHunter).ingest_event
        ⟨"nginx", some "9.9.9.9", "/index.html", "404", none⟩ 2).2.filter
        (fun a => a.kind == "404_storm")
      = [mkAlert "medium" "404_storm" (some "9.9.9.9") 7] := by
  have hc := claim_C7
    { ThreatHunter.init 60 3 (3 / 10) with
        status_by_ip := [("9.9.9.9", [("404", [0, 1])])] }
    ⟨"nginx", some "9.9.9.9", "/index.html", "404", none⟩ "9.9.9.9" 2 rfl rfl (Or.inr rfl)
  have hsc : stormCount
      { ThreatHunter.init 60 3 (3 / 10) with
          status_by_ip := [("9.9.9.9", [("404", [0, 1])])] } "9.9.9.9" "404" 2 = 3 := by
    norm_num [stormCount, alGet, pruneWindow, ThreatHunter.init]
  rw [hsc] at hc
  norm_num [ThreatHunter.init] at hc
  simpa [ThreatHunter.init] using hc

theorem check_rate_anomaly_spec (g : ThreatHunter) (ip : String) (now : ℚ) :
    (g.check_rate_anomaly (some ip) now).2
      = (if ((alGet g.rate_model ip (initEWMA g.ewma_alpha)).update
              (((pruneWindow (g.window : ℚ) now (alGet g.events_by_ip ip [])).length : ℚ)
                / ((max g.window 1 : ℤ) : ℚ))).zscoreGt3
            (((pruneWindow (g.window : ℚ) now (alGet g.events_by_ip ip [])).length : ℚ)
              / ((max g.window 1 : ℤ) : ℚ))
          && decide (g.threshold
              < ((pruneWindow (g.window : ℚ) now (alGet g.events_by_ip ip [])).length : ℤ))
         then [mkAlert "high" "rate_anomaly" (some ip) 10] else []) := by
  simp only [ThreatHunter.check_rate_anomaly]
  split <;> rfl

/-- Claim C8 (confirmed): for every entity-bearing RequestEvent, the rate
model is updated with `rate = count(all-requests)/max(window, 1)` and a
rate-anomaly alert is emitted exactly when the updated model's
`zscore(rate)` exceeds 3 and the in-window all-requests count strictly
exceeds the threshold; when emitted, the alert has `severity = high`,
`kind = rate_anomaly`, and its score equals `min(10.0, 7.5 + z)` (which is
exactly 10, since `z > 3`). -/
theorem claim_C8 (h : ThreatHunter) (ev : Event) (ip : String) (now : ℚ)
    (hty : ev.type = "nginx") (hip : ev.ip = some ip) :
    ((3 < (rateModelAfter h ip now).zscore (rateValue h ip now) ∧
        h.threshold < ((rateCount h ip now : ℕ) : ℤ)) →
      (h.ingest_event ev now).2.filter (fun a => a.kind == "rate_anomaly")
        = [mkAlert "high" "rate_anomaly" (some ip) 10] ∧
      ((10 : ℚ) : ℝ)
        = min 10 (7.5 + (rateModelAfter h ip now).zscore (rateValue h ip now))) ∧
    (¬ (3 < (rateModelAfter h ip now).zscore (rateValue h ip now) ∧
        h.threshold < ((rateCount h ip now : ℕ) : ℤ)) →
      (h.ingest_event ev now).2.filter (fun a => a.kind == "rate_anomaly") = []) := by
  have hfil : (h.ingest_event ev now).2.filter (fun a => a.kind == "rate_anomaly")
      = (if (rateModelAfter h ip now).zscoreGt3 (rateValue h ip now)
            && decide (h.threshold < ((rateCount h ip now : ℕ) : ℤ))
         then [mkAlert "high" "rate_anomaly" (some ip) 10] else []) := by
    simp only [ThreatHunter.ingest_event]
    rw [hip, if_pos hty]
    by_cases hst : ev.status = "403" ∨ ev.status = "404"
    · have hstormA : ∀ g : ThreatHunter,
          (g.check_status_storm (some ip) ev.status now).2.filter
            (fun a => a.kind == "rate_anomaly") = [] := by
        intro g
        rcases hst with hs | hs <;>
          simp [check_status_storm_spec, filter_ite, hs, List.filter_cons,
            show ((("403" : String) ++ "_storm") == "rate_anomaly") = false from by decide,
            show ((("404" : String) ++ "_storm") == "rate_anomaly") = false from by decide]
      rw [if_pos hst]
      simp [List.filter_append, filter_ite, hstormA, check_rate_anomaly_spec,
        alGet_alSet_self, pruneWindow_idem, rateModelAfter, rateValue, rateCount,
        List.filter_cons,
        show (("suspicious_path" : String) == "rate_anomaly") = false from by decide]
    · rw [if_neg hst]
      simp [List.filter_append, filter_ite, check_rate_anomaly_spec,
        alGet_alSet_self, pruneWindow_idem, rateModelAfter, rateValue, rateCount,
        List.filter_cons,
        show (("suspicious_path" : String) == "rate_anomaly") = false from by decide]
  constructor
  · rintro ⟨hz, hcnt⟩
    constructor
    · rw [hfil, if_pos (by
        rw [Bool.and_eq_true]
        exact ⟨(zscoreGt3_iff _ _).mpr hz, decide_eq_true hcnt⟩)]
    · rw [min_cap_of_gt3 hz]
      norm_num
  · intro hneg
    rw [hfil, if_neg]
    intro hcond
    apply hneg
    rw [Bool.and_eq_true] at hcond
    exact ⟨(zscoreGt3_iff _ _).mp hcond.1, of_decide_eq_true hcond.2⟩

/-- Claim C8 witness: on the fresh engine (uninitialized rate model, so the
updated model has mean equal to the rate and `z = 0`), a first request for
`9.9.9.9` emits no rate-anomaly alert. -/
theorem claim_C8_witness :
    ((ThreatHunter.init 60 5 (3 / 10)).ingest_event
        ⟨"nginx", some "9.9.9.9", "/a", "200", none⟩ 0).2.filter
        (fun a => a.kind == "rate_anomaly") = [] := by
  have hc := claim_C8 (ThreatHunter.init 60 5 (3 / 10))
    ⟨"nginx", some "9.9.9.9", "/a", "200", none⟩ "9.9.9.9" 0 rfl rfl
  apply hc.2
  rintro ⟨-, hlt⟩
  have hone : rateCount (ThreatHunter.init 60 5 (3 / 10)) "9.9.9.9" 0 = 1 := by
    norm_num [rateCount, alGet, pruneWindow, ThreatHunter.init]
  rw [hone] at hlt
  norm_num [ThreatHunter.init] at hlt

theorem ingest_failed_step (h : ThreatHunter) (ip : String) (t : ℚ) (ds : List ℚ)
    (hw : 0 ≤ (h.window : ℚ))
    (hds : alGet h.failed_logins_by_ip ip [] = ds)
    (hhead : ∀ y ∈ ds, t - y ≤ (h.window : ℚ)) :
    (h.ingest_event (failedLoginEv ip) t).2 = bfEmit h.threshold ip (ds.length + 1) ∧
    alGet (h.ingest_event (failedLoginEv ip) t).1.failed_logins_by_ip ip []
      = ds ++ [t] := by
  have hprune : pruneWindow (h.window : ℚ) t (ds ++ [t]) = ds ++ [t] := by
    apply pruneWindow_eq_self
    intro x hx
    rcases List.mem_append.mp hx with hx | hx
    · exact hhead x hx
    · rw [List.mem_singleton] at hx
      subst hx
      linarith
  have hkey : h.ingest_event (failedLoginEv ip) t =
      (({ h with stats :=
          { h.stats with total_events := h.stats.total_events + 1 } }).record_failed_login
        ip t).check_bruteforce ip t := by
    simp [ThreatHunter.ingest_event, failedLoginEv]
  rw [hkey]
  have h1 : ({ h with stats :=
      { h.stats with total_events := h.stats.total_events + 1 } }).record_failed_login ip t
      = { h with
          stats := { h.stats with total_events := h.stats.total_events + 1 },
          failed_logins_by_ip := alSet h.failed_logins_by_ip ip (ds ++ [t]) } := by
    simp [ThreatHunter.record_failed_login, hds, hprune]
  rw [h1]
  simp only [ThreatHunter.check_bruteforce, alGet_alSet_self, hprune, bfEmit,
    List.length_append, List.length_singleton]
  constructor
  · split <;> rfl
  · split <;> simp [ThreatHunter.alertState, alGet_alSet_self]

theorem ingestList_failed_run (ip : String) (ts : List ℚ) :
    ∀ (h : ThreatHunter) (ds : List ℚ),
      0 ≤ (h.window : ℚ) →
      alGet h.failed_logins_by_ip ip [] = ds →
      (∀ x ∈ ts, ∀ y ∈ ds ++ ts, x - y ≤ (h.window : ℚ)) →
      (ingestList h (ts.map (fun t => (failedLoginEv ip, t)))).2
          = bfRun h.threshold ip ds.length ts.length ∧
      alGet (ingestList h (ts.map (fun t => (failedLoginEv ip, t)))).1.failed_logins_by_ip
          ip [] = ds ++ ts := by
  induction ts with
  | nil =>
    intro h ds hw hds hpair
    exact ⟨rfl, by simpa using hds⟩
  | cons t ts' ih =>
    intro h ds hw hds hpair
    have hstep := ingest_failed_step h ip t ds hw hds
      (fun y hy => hpair t (List.mem_cons_self t ts') y (List.mem_append.mpr (Or.inl hy)))
    have hw' : 0 ≤ (((h.ingest_event (failedLoginEv ip) t).1.window : ℤ) : ℚ) := by
      rw [ingest_event_window]; exact hw
    have hpair' : ∀ x ∈ ts', ∀ y ∈ (ds ++ [t]) ++ ts',
        x - y ≤ (((h.ingest_event (failedLoginEv ip) t).1.window : ℤ) : ℚ) := by
      rw [ingest_event_window]
      intro x hx y hy
      rw [List.append_assoc, List.singleton_append] at hy
      exact hpair x (List.mem_cons_of_mem t hx) y hy
    have hih := ih (h.ingest_event (failedLoginEv ip) t).1 (ds ++ [t]) hw' hstep.2 hpair'
    have hth : (h.ingest_event (failedLoginEv ip) t).1.threshold = h.threshold :=
      ingest_event_threshold h (failedLoginEv ip) t
    rw [hth] at hih
    constructor
    · simp only [List.map_cons, ingestList]
      rw [hstep.1, hih.1]
      simp [bfRun, List.length_append]
    · simp only [List.map_cons, ingestList]
      rw [hih.2, List.append_assoc, List.singleton_append]

theorem bfRun_eq_nil (k : ℤ) (ip : String) : ∀ (m n : ℕ), ((n : ℤ) + (m : ℤ)) < k →
    bfRun k ip n m = [] := by
  intro m
  induction m with
  | zero => intro n _; rfl
  | succ m' ih =>
    intro n hlt
    show bfEmit k ip (n + 1) ++ bfRun k ip (n + 1) m' = []
    rw [bfEmit, if_neg (by push_cast at hlt ⊢; omega)]
    rw [ih (n + 1) (by push_cast at hlt ⊢; omega)]
    rfl

theorem bfRun_eq_single (k : ℤ) (ip : String) : ∀ (m n : ℕ), 1 ≤ m → ((n : ℤ) + (m : ℤ)) = k →
    bfRun k ip n m = [mkAlert "critical" "bruteforce" (some ip) 9] := by
  intro m
  induction m with
  | zero => intro n h0 _; exact absurd h0 (by norm_num)
  | succ m' ih =>
    intro n _ heq
    by_cases hm : m' = 0
    · subst hm
      show bfEmit k ip (n + 1) ++ bfRun k ip (n + 1) 0 = _
      have hk : ((n : ℤ) + 1) = k := by push_cast at heq; omega
      have hkQ : ((n + 1 : ℕ) : ℚ) = ((k : ℤ) : ℚ) := by exact_mod_cast hk
      rw [bfEmit, if_pos (by push_cast; omega)]
      show [mkAlert "critical" "bruteforce" (some ip) (9 + 1 / 2 * (((n + 1 : ℕ) : ℚ) - (k : ℚ)))]
          = _
      rw [hkQ]
      norm_num
    · have h1 : 1 ≤ m' := Nat.one_le_iff_ne_zero.mpr hm
      show bfEmit k ip (n + 1) ++ bfRun k ip (n + 1) m' = _
      rw [bfEmit, if_neg (by push_cast at heq ⊢; omega)]
      rw [ih (n + 1) h1 (by push_cast at heq ⊢; omega)]
      rfl

/-- Claim C6 (confirmed): with window `w > 0` and threshold `k > 0`,
ingesting exactly `k` failed-login events for one entity, all within `w`
seconds of each other (and nothing else), produces exactly one alert with
`kind = bruteforce`, `severity = critical` and score
`9.0 + 0.5·(N - k) = 9.0` (the in-window count `N` equals `k` at the firing
event); ingesting only `k - 1` such events produces no alert. -/
theorem claim_C6 (w k : ℤ) (a : ℚ) (ip : String) (ts : List ℚ)
    (hw : 0 < w) (hk : 0 < k)
    (hpair : ∀ x ∈ ts, ∀ y ∈ ts, x - y ≤ ((w : ℤ) : ℚ)) :
    ((ts.length : ℤ) = k →
      (ingestList (ThreatHunter.init w k a) (ts.map (fun t => (failedLoginEv ip, t)))).2
        = [⟨"critical", "bruteforce", some ip, 9⟩]) ∧
    ((ts.length : ℤ) = k - 1 →
      (ingestList (ThreatHunter.init w k a) (ts.map (fun t => (failedLoginEv ip, t)))).2
        = []) := by
  have hrun := ingestList_failed_run ip ts (ThreatHunter.init w k a) []
    (by exact_mod_cast hw.le)
    rfl
    (by intro x hx y hy; exact hpair x hx y (by simpa using hy))
  have hth : (ThreatHunter.init w k a).threshold = k := rfl
  rw [hth] at hrun
  simp only [List.length_nil] at hrun
  constructor
  · intro hlen
    rw [hrun.1]
    have h9 : mkAlert "critical" "bruteforce" (some ip) 9
        = ⟨"critical", "bruteforce", some ip, 9⟩ := by
      simp [mkAlert, round2_eq_of_mul_eq_int 9 900 (by norm_num)]
    rw [bfRun_eq_single k ip ts.length 0 (by omega) (by push_cast; omega), h9]
  · intro hlen
    rw [hrun.1]
    exact bfRun_eq_nil k ip ts.length 0 (by push_cast; omega)

/-- Claim C6 witness: concrete scenario A of the spec — `window = 60`,
`threshold = 3`, failed logins for `1.2.3.4` at t = 0, 1, 2 produce exactly
the single critical brute-force alert with score 9. -/
theorem claim_C6_witness :
    (ingestList (ThreatHunter.init 60 3 (3 / 10))
        (([0, 1, 2] : List ℚ).map (fun t => (failedLoginEv "1.2.3.4", t)))).2
      = [⟨"critical", "bruteforce", some "1.2.3.4", 9⟩] :=
  (claim_C6 60 3 (3 / 10) "1.2.3.4" [0, 1, 2] (by norm_num) (by norm_num)
    (by intro x hx y hy; fin_cases hx <;> fin_cases hy <;> norm_num)).1 (by norm_num)

/-- Claim C9 witness: the corrected frame statement at a concrete input —
the initial engine ingesting an accepted login for `1.2.3.4` at time 0. -/
theorem claim_C9_witness :
    ((ThreatHunter.init 300 5 (3 / 10)).ingest_event (acceptedLoginEv "1.2.3.4") 0).2 = [] ∧
    ((ThreatHunter.init 300 5 (3 / 10)).ingest_event (acceptedLoginEv "1.2.3.4") 0).1.failed_logins_by_ip
      = (ThreatHunter.init 300 5 (3 / 10)).failed_logins_by_ip ∧
    ((ThreatHunter.init 300 5 (3 / 10)).ingest_event (acceptedLoginEv "1.2.3.4") 0).1.rate_model
      = (ThreatHunter.init 300 5 (3 / 10)).rate_model ∧
    ((ThreatHunter.init 300 5 (3 / 10)).ingest_event (acceptedLoginEv "1.2.3.4") 0).1.stats.total_alerts
      = (ThreatHunter.init 300 5 (3 / 10)).stats.total_alerts ∧
    ((ThreatHunter.init 300 5 (3 / 10)).ingest_event (acceptedLoginEv "1.2.3.4") 0).1.stats.last_alerts
      = (ThreatHunter.init 300 5 (3 / 10)).stats.last_alerts ∧
    ((ThreatHunter.init 300 5 (3 / 10)).ingest_event (acceptedLoginEv "1.2.3.4") 0).1.stats.total_events
      = (ThreatHunter.init 300 5 (3 / 10)).stats.total_events + 1 ∧
    ((ThreatHunter.init 300 5 (3 / 10)).ingest_event (acceptedLoginEv "1.2.3.4") 0).1.stats.per_ip_count
      = alSet (ThreatHunter.init 300 5 (3 / 10)).stats.per_ip_count "1.2.3.4"
          (alGet (ThreatHunter.init 300 5 (3 / 10)).stats.per_ip_count "1.2.3.4" 0 + 1) ∧
    ((ThreatHunter.init 300 5 (3 / 10)).ingest_event (acceptedLoginEv "1.2.3.4") 0).1.events_by_ip
      = alSet (ThreatHunter.init 300 5 (3 / 10)).events_by_ip "1.2.3.4"
          (pruneWindow (((ThreatHunter.init 300 5 (3 / 10)).window : ℤ) : ℚ) 0
            (alGet (ThreatHunter.init 300 5 (3 / 10)).events_by_ip "1.2.3.4" [] ++ [0])) ∧
    ((ThreatHunter.init 300 5 (3 / 10)).ingest_event (acceptedLoginEv "1.2.3.4") 0).1.status_by_ip
      = alSet (ThreatHunter.init 300 5 (3 / 10)).status_by_ip "1.2.3.4"
          (alSet (alGet (ThreatHunter.init 300 5 (3 / 10)).status_by_ip "1.2.3.4" []) "200"
            (pruneWindow (((ThreatHunter.init 300 5 (3 / 10)).window : ℤ) : ℚ) 0
              (alGet (alGet (ThreatHunter.init 300 5 (3 / 10)).status_by_ip "1.2.3.4" []) "200" []
                ++ [0]))) :=
  claim_C9 (ThreatHunter.init 300 5 (3 / 10)) (acceptedLoginEv "1.2.3.4") "1.2.3.4" 0 rfl rfl rfl

end ThreatHunterModel
